import Mathlib

/-!
Verification development for the resilient book-generation pipeline
(`src/services/bookService.ts`, "Enhanced Version with Recovery" variant).

The TypeScript service is shallowly embedded:
* network calls (`fetch` inside `generateWithGoogle`/`generateWithMistral`/
  `generateWithZhipu`) are abstracted into a `GenResult` oracle giving, per
  attempt, the text the selected provider chain ultimately returned or the
  error it ultimately threw;
* `navigator.onLine` is a Bool parameter; `Date`, `generateId` and
  `toLocaleString` are external and passed in (or dropped when no claim
  observes them);
* the `Map`/`localStorage` state used by the checkpoint store is explicit
  association-list state threaded through the functions;
* `updateProgress` callbacks are accumulated into a list of `BookUpdate`
  records (the `Partial<BookProject>` objects the service emits);
* thrown JS exceptions are the `.error` channel of `Except String`.
-/

/-! ### JS-semantics helpers -/

/-- Word counting of `moduleContent.split(/\s+/).filter(w => w.length > 0).length`:
counts maximal runs of non-whitespace characters.  The Bool argument records
whether we are currently inside a word. -/
def countWordsAux : List Char → Bool → Nat
  | [], _ => 0
  | c :: cs, inWord =>
    if c.isWhitespace then countWordsAux cs false
    else (if inWord then 0 else 1) + countWordsAux cs true

def countWords (content : String) : Nat :=
  countWordsAux content.data false

/-- JS `String.prototype.trim`: drop leading and trailing whitespace. -/
def jsTrim (s : String) : String :=
  ⟨((s.data.dropWhile Char.isWhitespace).reverse.dropWhile Char.isWhitespace).reverse⟩

/-- JS `Set.prototype.add`: insertion-ordered, no duplicates. -/
def setAdd (s : List String) (x : String) : List String :=
  if x ∈ s then s else s ++ [x]

/-- JS `Set.prototype.delete`. -/
def setDelete (s : List String) (x : String) : List String :=
  s.filter (fun y => ¬ (y = x))

/-- JS `new Set(list)`: dedup keeping first occurrences. -/
def jsNewSet (l : List String) : List String :=
  l.foldl setAdd []

/-- JS `Map.prototype.set` on an association list (order preserved). -/
def mapSet {α : Type} : List (String × α) → String → α → List (String × α)
  | [], k, v => [(k, v)]
  | (k', v') :: rest, k, v =>
    if k' = k then (k, v) :: rest else (k', v') :: mapSet rest k v

/-- JS `Map.prototype.get` (`undefined` becomes `none`). -/
def mapGet {α : Type} (m : List (String × α)) (k : String) : Option α :=
  (m.find? (fun p => p.1 = k)).map (·.2)

/-- JS `Map.prototype.delete` / `localStorage.removeItem`. -/
def mapDelete {α : Type} (m : List (String × α)) (k : String) : List (String × α) :=
  m.filter (fun p => ¬ (p.1 = k))

/-! Decimal printing of a JS number (used for `module_${index + 1}` ids).
Modelled by a self-contained decimal printer so that injectivity is provable. -/

def decDigitChar : Nat → Char
  | 0 => '0' | 1 => '1' | 2 => '2' | 3 => '3' | 4 => '4'
  | 5 => '5' | 6 => '6' | 7 => '7' | 8 => '8' | 9 => '9'
  | _ => '*'

/-- Little-endian decimal digits of `n`, with explicit fuel (enough fuel is
supplied by callers; `natToString` uses `n` itself, and `n < 10 ^ n`). -/
def natDigitsRevGo : Nat → Nat → List Nat
  | 0, _ => []
  | fuel + 1, n => if n = 0 then [] else n % 10 :: natDigitsRevGo fuel (n / 10)

/-- Decimal rendering of a natural number, as JS renders a small integer. -/
def natToString (n : Nat) : String :=
  if n = 0 then "0" else ⟨((natDigitsRevGo n n).reverse.map decDigitChar)⟩

/-! ### Data model (src/types/book.ts as used by the service) -/

inductive ModuleStatus where
  | completed
  | error
deriving DecidableEq, Repr

/-- One generated content chapter (`BookModule`).  `generatedAt : Date` is
external wall-clock data and is omitted. -/
structure BookModule where
  id : String
  roadmapModuleId : String
  title : String
  content : String
  wordCount : Nat
  status : ModuleStatus
  error : Option String := none
deriving DecidableEq, Repr

/-- One planned unit of the roadmap (`RoadmapModule`). -/
structure RoadmapModule where
  id : String
  title : String
  objectives : List String
  estimatedTime : String
  order : Nat
deriving DecidableEq, Repr

structure BookRoadmap where
  modules : List RoadmapModule
  totalModules : Nat
  estimatedReadingTime : String
  difficultyLevel : String
deriving DecidableEq, Repr

/-- The fields of `BookProject` the service reads. -/
structure BookProject where
  id : String
  title : String
  roadmap : Option BookRoadmap
  modules : List BookModule
deriving DecidableEq, Repr

/-- The fields of `BookSession` the service reads (besides prompt text). -/
structure BookSession where
  goal : String
  targetAudience : Option String := none
  complexityLevel : Option String := none
deriving DecidableEq, Repr

/-- One `updateProgress(bookId, updates)` payload (`Partial<BookProject>`);
`updatedAt` is external clock data and is omitted. -/
structure BookUpdate where
  status : Option String := none
  progress : Option ℚ := none
  error : Option String := none
  modules : Option (List BookModule) := none
  finalBook : Option String := none
  totalWords : Option Nat := none
deriving DecidableEq, Repr

/-- Durable recovery record (`GenerationCheckpoint`); the `timestamp : Date`
field is external clock data and is omitted. -/
structure GenerationCheckpoint where
  bookId : String
  completedModuleIds : List String
  failedModuleIds : List String
  lastSuccessfulIndex : Nat
deriving DecidableEq, Repr

/-- The checkpoint state: the in-memory `checkpoints` Map and the
`localStorage` slots (JSON serialization is modelled as storing the value). -/
structure CheckpointStore where
  mem : List (String × GenerationCheckpoint)
  localStore : List (String × GenerationCheckpoint)
deriving DecidableEq, Repr

/-! ### Settings and configuration validation -/

structure APISettings where
  googleApiKey : String
  zhipuApiKey : String
  mistralApiKey : String
  selectedProvider : String
  selectedModel : String
deriving DecidableEq, Repr

/-- `getApiKeyForProvider` (an empty key string is JS-falsy, hence `null`). -/
def getApiKeyForProvider (s : APISettings) (provider : String) : Option String :=
  if provider = "google" then (if s.googleApiKey = "" then none else some s.googleApiKey)
  else if provider = "mistral" then (if s.mistralApiKey = "" then none else some s.mistralApiKey)
  else if provider = "zhipu" then (if s.zhipuApiKey = "" then none else some s.zhipuApiKey)
  else none

structure ValidationResult where
  isValid : Bool
  errors : List String
deriving DecidableEq, Repr

/-- `validateSettings` (empty strings are JS-falsy). -/
def validateSettings (s : APISettings) : ValidationResult :=
  let errors :=
    (if s.selectedProvider = "" then ["No AI provider selected"] else []) ++
    (if s.selectedModel = "" then ["No model selected"] else []) ++
    (match getApiKeyForProvider s s.selectedProvider with
     | none => ["No API key configured for " ++ s.selectedProvider]
     | some _ => [])
  { isValid := errors.length = 0, errors := errors }

/-- The outcome of the underlying provider-call chain
(`generateWithGoogle`/`generateWithMistral`/`generateWithZhipu`, including
their internal 429/503 retry loops): either the text finally returned or the
error finally thrown.  This is the external network behaviour. -/
inductive GenResult where
  | ok (text : String)
  | err (msg : String)
deriving DecidableEq, Repr

/-- `generateWithAI(prompt, bookId)`: pre-flight configuration validation,
`navigator.onLine` check, then the provider call (abstracted into `result`).
Abort-controller bookkeeping has no observable effect on the returned value
and is dropped. -/
def generateWithAI (s : APISettings) (online : Bool) (result : GenResult) :
    Except String String :=
  let validation := validateSettings s
  if !validation.isValid then
    .error ("Configuration error: " ++ String.intercalate ", " validation.errors)
  else if !online then
    .error "No internet connection. Please check your connection and try again."
  else
    match result with
    | .ok t => .ok t
    | .err m => .error m

/-! ### Checkpoint store (`saveCheckpoint` / `loadCheckpoint` / `clearCheckpoint`) -/

/-- `saveCheckpoint`: writes the in-memory Map entry and the
`localStorage` slot `checkpoint_${bookId}`; returns the new store state and
the checkpoint value written. -/
def saveCheckpoint (store : CheckpointStore) (bookId : String)
    (completedModuleIds failedModuleIds : List String) (lastIndex : Nat) :
    CheckpointStore × GenerationCheckpoint :=
  let checkpoint : GenerationCheckpoint :=
    { bookId := bookId, completedModuleIds := completedModuleIds,
      failedModuleIds := failedModuleIds, lastSuccessfulIndex := lastIndex }
  ({ mem := mapSet store.mem bookId checkpoint,
     localStore := mapSet store.localStore ("checkpoint_" ++ bookId) checkpoint },
   checkpoint)

/-- `loadCheckpoint`: memory first, then the `localStorage` slot. -/
def loadCheckpoint (store : CheckpointStore) (bookId : String) :
    Option GenerationCheckpoint :=
  match mapGet store.mem bookId with
  | some cp => some cp
  | none => mapGet store.localStore ("checkpoint_" ++ bookId)

/-- `clearCheckpoint`: removes both copies. -/
def clearCheckpoint (store : CheckpointStore) (bookId : String) : CheckpointStore :=
  { mem := mapDelete store.mem bookId,
    localStore := mapDelete store.localStore ("checkpoint_" ++ bookId) }

/-- `hasCheckpoint(bookId)`. -/
def hasCheckpoint (store : CheckpointStore) (bookId : String) : Bool :=
  (mapGet store.mem bookId).isSome || (mapGet store.localStore ("checkpoint_" ++ bookId)).isSome

/-! ### Per-module generation with retry
(`generateModuleContentWithRetry`, lines 1352-1429) -/

/-- `MAX_MODULE_RETRIES` (line 1044). -/
def MAX_MODULE_RETRIES : Nat := 3

/-- `RETRY_DELAY_BASE` in milliseconds (line 1045). -/
def RETRY_DELAY_BASE : Nat := 2000

/-- The backoff delay computed before a retry (line 1399):
`RETRY_DELAY_BASE * Math.pow(2, attemptNumber - 1)`. -/
def retryDelay (attemptNumber : Nat) : Nat :=
  RETRY_DELAY_BASE * 2 ^ (attemptNumber - 1)

/-- The `try` block of `generateModuleContentWithRetry` for one attempt:
call `generateWithAI` (the per-attempt provider outcome is `result`), count
words, throw if below the 300-word minimum, otherwise build the completed
module.  `moduleId` stands for the external `generateId()` of this attempt;
prompt building only shapes the text sent to the provider, which the oracle
already accounts for. -/
def attemptModuleGeneration (settings : APISettings) (online : Bool)
    (result : GenResult) (moduleId : String) (roadmapModule : RoadmapModule) :
    Except String BookModule :=
  match generateWithAI settings online result with
  | .error msg => .error msg
  | .ok moduleContent =>
    let wordCount := countWords moduleContent
    if wordCount < 300 then
      .error ("Generated content too short (" ++ toString wordCount ++
        " words). Minimum 300 words required.")
    else
      .ok { id := moduleId, roadmapModuleId := roadmapModule.id,
            title := roadmapModule.title, content := jsTrim moduleContent,
            wordCount := wordCount, status := .completed, error := none }

/-- The error-status module returned once all retries are exhausted
(lines 1418-1427). -/
def failedBookModule (moduleId : String) (roadmapModule : RoadmapModule)
    (errorMessage : String) : BookModule :=
  { id := moduleId, roadmapModuleId := roadmapModule.id,
    title := roadmapModule.title, content := "", wordCount := 0,
    status := .error, error := some errorMessage }

/-- Recursion core of `generateModuleContentWithRetry`.  The JS recursion is
bounded by the `attemptNumber < MAX_MODULE_RETRIES` guard; termination is by
explicit fuel, with the fuel-exhausted branch an unreachable `.error`
artifact (reachability of a `.ok` result is *proved*, not assumed, from the
fuel bound — see the C2 theorem).  `oracle k` is the provider outcome of
attempt `k`; `newId k` the `generateId()` of attempt `k`.  The `sleep` of
the computed backoff delay is unobservable. -/
def generateModuleContentWithRetryGo (settings : APISettings) (online : Bool)
    (oracle : Nat → GenResult) (newId : Nat → String)
    (roadmapModule : RoadmapModule) :
    Nat → Nat → Except String BookModule
  | 0, _ => .error "retry fuel exhausted"
  | fuel + 1, attemptNumber =>
    match attemptModuleGeneration settings online (oracle attemptNumber)
        (newId attemptNumber) roadmapModule with
    | .ok m => .ok m
    | .error errorMessage =>
      if attemptNumber < MAX_MODULE_RETRIES then
        let _delay := retryDelay attemptNumber
        generateModuleContentWithRetryGo settings online oracle newId
          roadmapModule fuel (attemptNumber + 1)
      else
        .ok (failedBookModule (newId attemptNumber) roadmapModule errorMessage)

/-- `generateModuleContentWithRetry(book, roadmapModule, session, attemptNumber)`.
`MAX_MODULE_RETRIES + 1` fuel bounds the recursion depth from any starting
attempt number. -/
def generateModuleContentWithRetry (settings : APISettings) (online : Bool)
    (oracle : Nat → GenResult) (newId : Nat → String)
    (roadmapModule : RoadmapModule) (attemptNumber : Nat) :
    Except String BookModule :=
  generateModuleContentWithRetryGo settings online oracle newId roadmapModule
    (MAX_MODULE_RETRIES + 1) attemptNumber

/-! ### The recovery pipeline
(`generateAllModulesWithRecovery`, lines 1432-1594) -/

/-- The effective already-completed id set (lines 1443-1445):
`new Set(checkpoint?.completedModuleIds || completedModules.map(m => m.roadmapModuleId))`.
Note `||`: the in-memory completed modules are consulted only when no
checkpoint exists (a present checkpoint's array is JS-truthy even if empty). -/
def effectiveCompletedIds (checkpoint : Option GenerationCheckpoint)
    (modules : List BookModule) : List String :=
  jsNewSet (match checkpoint with
    | some cp => cp.completedModuleIds
    | none => (modules.filter (fun m => m.status = ModuleStatus.completed)).map
        (·.roadmapModuleId))

/-- `new Set<string>(checkpoint?.failedModuleIds || [])` (line 1446). -/
def effectiveFailedIds (checkpoint : Option GenerationCheckpoint) : List String :=
  jsNewSet (match checkpoint with
    | some cp => cp.failedModuleIds
    | none => [])

/-- Lines 1449-1451: the planned modules whose id is not in the effective
completed set. -/
def modulesToGenerate (roadmap : BookRoadmap)
    (checkpoint : Option GenerationCheckpoint) (modules : List BookModule) :
    List RoadmapModule :=
  roadmap.modules.filter (fun rm => ¬ (rm.id ∈ effectiveCompletedIds checkpoint modules))

/-- Mutable state of the generation loop. -/
structure RecoveryState where
  completedModules : List BookModule
  completedModuleIds : List String
  failedModuleIds : List String
  store : CheckpointStore
  updates : List BookUpdate
  checkpointsSaved : List GenerationCheckpoint
  attempted : List String

/-- The `for` loop of `generateAllModulesWithRecovery` (lines 1467-1564).
`i` is the loop index (passed to `saveCheckpoint` as `lastIndex`),
`totalModules` is `book.roadmap.modules.length`.  Each iteration records the
roadmap-module id in `attempted` when it invokes
`generateModuleContentWithRetry`.  The inter-module 1s `sleep` is
unobservable. -/
def recoveryLoop (settings : APISettings) (online : Bool)
    (oracle : String → Nat → GenResult) (newId : String → Nat → String)
    (bookId : String) (totalModules : Nat) :
    List RoadmapModule → Nat → RecoveryState → RecoveryState
  | [], _, st => st
  | roadmapModule :: rest, i, st =>
    let st := { st with attempted := st.attempted ++ [roadmapModule.id] }
    match generateModuleContentWithRetry settings online (oracle roadmapModule.id)
        (newId roadmapModule.id) roadmapModule 1 with
    | .ok newModule =>
      if newModule.status = ModuleStatus.completed then
        let completedModules := st.completedModules ++ [newModule]
        let completedModuleIds := setAdd st.completedModuleIds roadmapModule.id
        let failedModuleIds := setDelete st.failedModuleIds roadmapModule.id
        let saved := saveCheckpoint st.store bookId completedModuleIds failedModuleIds i
        let progress : ℚ := 15 + ((completedModules.length : ℚ) / (totalModules : ℚ)) * 70
        recoveryLoop settings online oracle newId bookId totalModules rest (i + 1)
          { completedModules := completedModules,
            completedModuleIds := completedModuleIds,
            failedModuleIds := failedModuleIds,
            store := saved.1,
            updates := st.updates ++
              [{ modules := some completedModules, progress := some (min 85 progress) }],
            checkpointsSaved := st.checkpointsSaved ++ [saved.2],
            attempted := st.attempted }
      else
        let failedModuleIds := setAdd st.failedModuleIds roadmapModule.id
        let saved := saveCheckpoint st.store bookId st.completedModuleIds failedModuleIds i
        let completedModules := st.completedModules ++ [newModule]
        recoveryLoop settings online oracle newId bookId totalModules rest (i + 1)
          { completedModules := completedModules,
            completedModuleIds := st.completedModuleIds,
            failedModuleIds := failedModuleIds,
            store := saved.1,
            updates := st.updates ++ [{ modules := some completedModules }],
            checkpointsSaved := st.checkpointsSaved ++ [saved.2],
            attempted := st.attempted }
    | .error errorMessage =>
      -- catch branch (lines 1534-1563): unexpected error during generation
      let failedModuleIds := setAdd st.failedModuleIds roadmapModule.id
      let saved := saveCheckpoint st.store bookId st.completedModuleIds failedModuleIds i
      let completedModules := st.completedModules ++
        [failedBookModule (newId roadmapModule.id 0) roadmapModule errorMessage]
      recoveryLoop settings online oracle newId bookId totalModules rest (i + 1)
        { completedModules := completedModules,
          completedModuleIds := st.completedModuleIds,
          failedModuleIds := failedModuleIds,
          store := saved.1,
          updates := st.updates ++ [{ modules := some completedModules }],
          checkpointsSaved := st.checkpointsSaved ++ [saved.2],
          attempted := st.attempted }

/-- The failure-summary update of lines 1579-1583:
status `error` and a message built from the failed/successful counts. -/
def errorSummaryUpdate (modules : List BookModule) : BookUpdate :=
  { status := some "error",
    error := some ("Generation completed with " ++
      toString ((modules.filter (fun m => m.status = ModuleStatus.error)).length) ++
      " failed module(s). Successfully generated " ++
      toString ((modules.filter (fun m => m.status = ModuleStatus.completed)).length) ++
      " modules. You can retry failed modules or continue to assembly."),
    modules := some modules }

/-- The all-successful final update of lines 1588-1592. -/
def readyForAssemblyUpdate (modules : List BookModule) : BookUpdate :=
  { status := some "roadmap_completed", modules := some modules, progress := some 90 }

/-- Observable outcome of `generateAllModulesWithRecovery`. -/
structure RecoveryResult where
  store : CheckpointStore
  updates : List BookUpdate
  checkpointsSaved : List GenerationCheckpoint
  attempted : List String
  modules : List BookModule
  cleared : Bool

/-- `generateAllModulesWithRecovery(book, session)`.  Throws (`.error`) only
when `book.roadmap` is absent.  `oracle m k` is the provider outcome for the
module with roadmap id `m` at attempt `k`; `newId m k` its `generateId()`. -/
def generateAllModulesWithRecovery (settings : APISettings) (online : Bool)
    (oracle : String → Nat → GenResult) (newId : String → Nat → String)
    (store : CheckpointStore) (book : BookProject) :
    Except String RecoveryResult :=
  match book.roadmap with
  | none => .error "No roadmap available for module generation"
  | some roadmap =>
    let entryUpdate : BookUpdate := { status := some "generating_content", progress := some 15 }
    let checkpoint := loadCheckpoint store book.id
    let completedModules := book.modules.filter (fun m => m.status = ModuleStatus.completed)
    let completedModuleIds := effectiveCompletedIds checkpoint book.modules
    let failedModuleIds := effectiveFailedIds checkpoint
    let toGenerate := modulesToGenerate roadmap checkpoint book.modules
    if toGenerate.length = 0 then
      .ok { store := store,
            updates := [entryUpdate,
              { status := some "roadmap_completed", progress := some 90 }],
            checkpointsSaved := [], attempted := [],
            modules := completedModules, cleared := false }
    else
      let st := recoveryLoop settings online oracle newId book.id
        roadmap.modules.length toGenerate 0
        { completedModules := completedModules,
          completedModuleIds := completedModuleIds,
          failedModuleIds := failedModuleIds,
          store := store, updates := [entryUpdate],
          checkpointsSaved := [], attempted := [] }
      let hasFailures := st.completedModules.any (fun m => m.status = ModuleStatus.error)
      if hasFailures then
        .ok { store := st.store,
              updates := st.updates ++ [errorSummaryUpdate st.completedModules],
              checkpointsSaved := st.checkpointsSaved, attempted := st.attempted,
              modules := st.completedModules, cleared := false }
      else
        let cleared := clearCheckpoint st.store book.id
        .ok { store := cleared,
              updates := st.updates ++ [readyForAssemblyUpdate st.completedModules],
              checkpointsSaved := st.checkpointsSaved, attempted := st.attempted,
              modules := st.completedModules, cleared := true }

/-! ### Roadmap response parsing (`parseRoadmapResponse`, lines 1700-1731) -/

/-- One pass of `response.replace(/MARKER\s*/g, '')`: every occurrence of the
marker together with the whitespace following it is removed.  Fuel-bounded
scan (the fuel `cs.length` supplied by `stripMarker` always suffices since
every step consumes at least one character). -/
def stripMarkerGo (marker : List Char) : Nat → List Char → List Char
  | 0, cs => cs
  | _ + 1, [] => []
  | fuel + 1, c :: cs =>
    if marker.isPrefixOf (c :: cs) then
      stripMarkerGo marker fuel (((c :: cs).drop marker.length).dropWhile Char.isWhitespace)
    else c :: stripMarkerGo marker fuel cs

def stripMarker (marker : List Char) (cs : List Char) : List Char :=
  stripMarkerGo marker cs.length cs

/-- Lines 1701-1705: trim, strip code-fence markers, drop everything before
the first brace and after the last closing brace. -/
def cleanRoadmapResponse (response : String) : List Char :=
  let t0 := (jsTrim response).data
  let t1 := stripMarker "```json".data t0
  let t2 := stripMarker "```".data t1
  let t3 := t2.dropWhile (fun c => ¬ (c = '{'))
  (t3.reverse.dropWhile (fun c => ¬ (c = '}'))).reverse

/-- `cleanedResponse.match(/\{[\s\S]*\}/)` (line 1707): the span from the
first opening brace through the last closing brace, if both exist. -/
def matchJsonSpan (cs : List Char) : Option (List Char) :=
  let t := cs.dropWhile (fun c => ¬ (c = '{'))
  let u := (t.reverse.dropWhile (fun c => ¬ (c = '}'))).reverse
  if u.isEmpty then none else some u

/-- The JSON object shape `parseRoadmapResponse` reads from `JSON.parse`:
optional fields become `none` when absent (`undefined`). -/
structure ModuleJson where
  title : Option String := none
  objectives : Option (List String) := none
  estimatedTime : Option String := none
deriving DecidableEq, Repr

structure RoadmapJson where
  modules : Option (List ModuleJson) := none
  estimatedReadingTime : Option String := none
  difficultyLevel : Option String := none
deriving DecidableEq, Repr

/-- JS template-literal stringification of a possibly-`undefined` value. -/
def jsStr : Option String → String
  | some s => s
  | none => "undefined"

/-- The per-module mapper of lines 1718-1724:
`id: module_${index+1}`, trimmed title with JS-falsy default, objectives
default when the field is not an array, time-estimate default, 1-based
order. -/
def processModule (index : Nat) (m : ModuleJson) : RoadmapModule :=
  { id := "module_" ++ natToString (index + 1),
    title := (match m.title with
      | some t =>
        let t2 := jsTrim t
        if t2 = "" then "Module " ++ natToString (index + 1) else t2
      | none => "Module " ++ natToString (index + 1)),
    objectives := (match m.objectives with
      | some l => l
      | none => ["Learn " ++ jsStr m.title]),
    estimatedTime := (match m.estimatedTime with
      | some t => if t = "" then "1-2 hours" else t
      | none => "1-2 hours"),
    order := index + 1 }

/-- `roadmap.modules.map((module, index) => ...)` with running index. -/
def processModulesFrom (index : Nat) : List ModuleJson → List RoadmapModule
  | [] => []
  | m :: rest => processModule index m :: processModulesFrom (index + 1) rest

/-- `parseRoadmapResponse(response, session)` (lines 1700-1731).
`parseJson` is the external `JSON.parse` (its thrown `SyntaxError` is the
`.error` case and propagates, since this variant wraps no try around it). -/
def parseRoadmapResponse (parseJson : String → Except String RoadmapJson)
    (session : BookSession) (response : String) : Except String BookRoadmap :=
  let cleanedResponse := cleanRoadmapResponse response
  match matchJsonSpan cleanedResponse with
  | none => .error "Invalid response format: No valid JSON found"
  | some jsonChars =>
    match parseJson (String.mk jsonChars) with
    | .error e => .error e
    | .ok roadmap =>
      match roadmap.modules with
      | none => .error "Invalid roadmap: missing modules array"
      | some ms =>
        let modules := processModulesFrom 0 ms
        let d1 := (match roadmap.difficultyLevel with | some t => t | none => "")
        let d2 := if d1 = "" then
            (match session.complexityLevel with | some t => t | none => "") else d1
        .ok { modules := modules,
              totalModules := modules.length,
              estimatedReadingTime := (match roadmap.estimatedReadingTime with
                | some t => if t = "" then natToString (modules.length * 2) ++ " hours" else t
                | none => natToString (modules.length * 2) ++ " hours"),
              difficultyLevel := if d2 = "" then "intermediate" else d2 }

/-! ### Final assembly (`assembleFinalBook`, lines 1773-1814) -/

def isSlugKeep (c : Char) : Bool :=
  ('a' ≤ c ∧ c ≤ 'z') ∨ ('0' ≤ c ∧ c ≤ '9')

/-- `.replace(/[^a-z0-9]+/g, '-')`: each maximal run of excluded characters
becomes a single dash.  The Bool argument records being inside such a run. -/
def collapseNonSlugAux : List Char → Bool → List Char
  | [], _ => []
  | c :: cs, inRun =>
    if isSlugKeep c then c :: collapseNonSlugAux cs false
    else (if inRun then [] else ['-']) ++ collapseNonSlugAux cs true

/-- `title.toLowerCase().replace(/[^a-z0-9]+/g, '-')` (line 1823). -/
def slugify (t : String) : String :=
  ⟨collapseNonSlugAux (t.data.map Char.toLower) false⟩

def tocEntriesFrom (i : Nat) : List BookModule → List String
  | [] => []
  | m :: rest =>
    (natToString (i + 1) ++ ". [" ++ m.title ++ "](#" ++ slugify m.title ++ ")") ::
      tocEntriesFrom (i + 1) rest

/-- `generateTableOfContents(modules)` (lines 1821-1825). -/
def generateTableOfContents (modules : List BookModule) : String :=
  String.intercalate "\n" (tocEntriesFrom 0 modules)

/-- `getProviderDisplayName()` (lines 1816-1819). -/
def getProviderDisplayName (s : APISettings) : String :=
  if s.selectedProvider = "google" then "Google Gemini"
  else if s.selectedProvider = "mistral" then "Mistral AI"
  else if s.selectedProvider = "zhipu" then "ZhipuAI"
  else "AI"

/-- `book.modules.map((m, i) => ...)` of lines 1796-1798: each module's
content followed by a divider except after the last. -/
def moduleParts (len : Nat) (i : Nat) : List BookModule → List String
  | [] => []
  | m :: rest =>
    (m.content ++ "\n\n" ++ (if i < len - 1 then "---\n\n" else "")) ::
      moduleParts len (i + 1) rest

/-- The assembled document string of lines 1788-1801.  `dateStr` is the
external `new Date().toLocaleDateString()`; the locale digit grouping of
`totalWords.toLocaleString()` is abstracted to plain decimal. -/
def assembleDocument (settings : APISettings) (book : BookProject) (dateStr : String)
    (introduction summary glossary : String) (totalWords : Nat) : String :=
  String.join
    (["# " ++ book.title ++ "\n",
      "**Generated:** " ++ dateStr ++ "\n",
      "**Words:** " ++ natToString totalWords ++ "\n",
      "**Provider:** " ++ getProviderDisplayName settings ++ " (" ++
        settings.selectedModel ++ ")\n\n",
      "---\n\n## Table of Contents\n",
      generateTableOfContents book.modules,
      "\n\n---\n\n## Introduction\n\n" ++ introduction ++ "\n\n---\n\n"] ++
     moduleParts book.modules.length 0 book.modules ++
     ["\n---\n\n## Summary\n\n" ++ summary ++ "\n\n---\n\n",
      "## Glossary\n\n" ++ glossary])

structure AssembleOutcome where
  result : Except String Unit
  updates : List BookUpdate
  store : CheckpointStore
  cleared : Bool
deriving Repr

/-- `assembleFinalBook(book, session)` of the recovery variant
(lines 1773-1814).  The three auxiliary generations run under `Promise.all`:
all three must succeed, and any single rejection rejects the whole assembly
(the concurrent scheduling itself is unobservable here; each call's outcome
is a `GenResult` parameter).  On rejection the `catch` block only logs and
rethrows — it emits no progress update — so the only update ever sent before
a failure is the entry `assembling/90` one and `finalBook` is never set. -/
def assembleFinalBook (settings : APISettings) (online : Bool)
    (introResult summaryResult glossaryResult : GenResult) (dateStr : String)
    (store : CheckpointStore) (book : BookProject) : AssembleOutcome :=
  let entry : BookUpdate := { status := some "assembling", progress := some 90 }
  let aux : Except String (String × String × String) := do
    let introduction ← generateWithAI settings online introResult
    let summary ← generateWithAI settings online summaryResult
    let glossary ← generateWithAI settings online glossaryResult
    pure (introduction, summary, glossary)
  match aux with
  | .error e =>
    { result := .error e, updates := [entry], store := store, cleared := false }
  | .ok (introduction, summary, glossary) =>
    let totalWords := book.modules.foldl (fun sum m => sum + m.wordCount) 0
    let finalBook := assembleDocument settings book dateStr introduction summary
      glossary totalWords
    { result := .ok (),
      updates := [entry,
        { status := some "completed", progress := some 100,
          finalBook := some finalBook, totalWords := some totalWords }],
      store := clearCheckpoint store book.id, cleared := true }

/-! ### Request cancellation (`cancelActiveRequests`, lines 1898-1906) -/

/-- `cancelActiveRequests(bookId?)` over the keys of the `activeRequests`
Map.  Returns `(aborted ids, remaining map keys)`.  The guard mirrors
`if (bookId && this.activeRequests.has(bookId))` — a JS-falsy (absent or
empty) `bookId`, or one without an entry, falls through to the branch that
aborts every request and clears the map. -/
def cancelActiveRequests (bookId : Option String) (activeRequests : List String) :
    List String × List String :=
  match bookId with
  | some b =>
    if ¬ (b = "") ∧ b ∈ activeRequests then
      ([b], activeRequests.filter (fun k => ¬ (k = b)))
    else
      (activeRequests, [])
  | none => (activeRequests, [])

/-! ### Basic lemmas about the JS-semantics helpers -/

theorem mem_setAdd {s : List String} {x y : String} :
    y ∈ setAdd s x ↔ y ∈ s ∨ y = x := by
  unfold setAdd
  split
  · constructor
    · exact fun h => Or.inl h
    · rintro (h | rfl)
      · exact h
      · assumption
  · simp

theorem mem_setDelete {s : List String} {x y : String} :
    y ∈ setDelete s x ↔ y ∈ s ∧ ¬ y = x := by
  simp [setDelete]

theorem mem_jsNewSet {l : List String} {x : String} :
    x ∈ jsNewSet l ↔ x ∈ l := by
  have key : ∀ (l acc : List String), x ∈ l.foldl setAdd acc ↔ x ∈ acc ∨ x ∈ l := by
    intro l
    induction l with
    | nil => simp
    | cons a t ih =>
      intro acc
      rw [List.foldl_cons, ih, mem_setAdd]
      constructor
      · rintro (⟨h | rfl⟩ | h)
        · exact Or.inl h
        · exact Or.inr (List.mem_cons_self _ _)
        · exact Or.inr (List.mem_cons_of_mem _ h)
      · rintro (h | h)
        · exact Or.inl (Or.inl h)
        · rcases List.mem_cons.mp h with rfl | h
          · exact Or.inl (Or.inr rfl)
          · exact Or.inr h
  rw [jsNewSet, key]
  simp

theorem mapGet_mapSet_self {α : Type} (m : List (String × α)) (k : String) (v : α) :
    mapGet (mapSet m k v) k = some v := by
  induction m with
  | nil => simp [mapSet, mapGet, List.find?]
  | cons p rest ih =>
    obtain ⟨k', v'⟩ := p
    by_cases h : k' = k
    · subst h
      simp [mapSet, mapGet, List.find?]
    · simp only [mapSet, if_neg h]
      simpa [mapGet, List.find?, h] using ih

theorem mapGet_mapDelete_self {α : Type} (m : List (String × α)) (k : String) :
    mapGet (mapDelete m k) k = none := by
  have hfind : (mapDelete m k).find? (fun p => p.1 = k) = none := by
    rw [List.find?_eq_none]
    intro a ha
    rw [mapDelete, List.mem_filter] at ha
    simpa using ha.2
  simp [mapGet, hfind]

/-! ### Lemmas about the per-module retry machinery -/

/-- With fuel exceeding the remaining retry budget, the retry recursion
always returns a module (the JS function returns; it never reaches the
fuel-exhausted artifact branch). -/
theorem retryGo_isOk (settings : APISettings) (online : Bool)
    (oracle : Nat → GenResult) (newId : Nat → String) (rm : RoadmapModule) :
    ∀ fuel attemptNumber, MAX_MODULE_RETRIES - attemptNumber < fuel →
    ∃ m, generateModuleContentWithRetryGo settings online oracle newId rm
      fuel attemptNumber = .ok m := by
  intro fuel
  induction fuel with
  | zero => intro a h; omega
  | succ f ih =>
    intro a h
    rw [generateModuleContentWithRetryGo]
    cases hat : attemptModuleGeneration settings online (oracle a) (newId a) rm with
    | ok m => exact ⟨m, rfl⟩
    | error msg =>
      dsimp only
      by_cases hlt : a < MAX_MODULE_RETRIES
      · rw [if_pos hlt]
        exact ih (a + 1) (by omega)
      · rw [if_neg hlt]
        exact ⟨_, rfl⟩

/-- The result does not depend on the fuel, as long as the fuel suffices. -/
theorem retryGo_fuel_irrel (settings : APISettings) (online : Bool)
    (oracle : Nat → GenResult) (newId : Nat → String) (rm : RoadmapModule) :
    ∀ f₁ f₂ attemptNumber, MAX_MODULE_RETRIES - attemptNumber < f₁ →
      MAX_MODULE_RETRIES - attemptNumber < f₂ →
    generateModuleContentWithRetryGo settings online oracle newId rm f₁ attemptNumber =
      generateModuleContentWithRetryGo settings online oracle newId rm f₂ attemptNumber := by
  intro f₁
  induction f₁ with
  | zero => intro f₂ a h₁ _; omega
  | succ g ih =>
    intro f₂ a h₁ h₂
    obtain ⟨g₂, rfl⟩ : ∃ g₂, f₂ = g₂ + 1 := ⟨f₂ - 1, by omega⟩
    rw [generateModuleContentWithRetryGo, generateModuleContentWithRetryGo]
    cases hat : attemptModuleGeneration settings online (oracle a) (newId a) rm with
    | ok m => rfl
    | error msg =>
      dsimp only
      by_cases hlt : a < MAX_MODULE_RETRIES
      · rw [if_pos hlt, if_pos hlt]
        exact ih g₂ (a + 1) (by omega) (by omega)
      · rw [if_neg hlt, if_neg hlt]

/-- When every attempt fails, the recursion walks the attempt counter up to
`MAX_MODULE_RETRIES` and returns the error-status module carrying the last
attempt's error message. -/
theorem retryGo_all_fail (settings : APISettings) (online : Bool)
    (oracle : Nat → GenResult) (newId : Nat → String) (rm : RoadmapModule)
    (msgs : Nat → String)
    (hall : ∀ k, attemptModuleGeneration settings online (oracle k) (newId k) rm =
      .error (msgs k)) :
    ∀ fuel attemptNumber, MAX_MODULE_RETRIES - attemptNumber < fuel →
      attemptNumber ≤ MAX_MODULE_RETRIES →
    generateModuleContentWithRetryGo settings online oracle newId rm fuel attemptNumber =
      .ok (failedBookModule (newId MAX_MODULE_RETRIES) rm (msgs MAX_MODULE_RETRIES)) := by
  intro fuel
  induction fuel with
  | zero => intro a h _; omega
  | succ f ih =>
    intro a h ha
    rw [generateModuleContentWithRetryGo, hall a]
    dsimp only
    by_cases hlt : a < MAX_MODULE_RETRIES
    · rw [if_pos hlt]
      exact ih (a + 1) (by omega) (by omega)
    · rw [if_neg hlt]
      have : a = MAX_MODULE_RETRIES := by omega
      rw [this]

/-- A module returned by one successful attempt is completed with at least
the 300-word minimum. -/
theorem attemptModuleGeneration_ok (settings : APISettings) (online : Bool)
    (result : GenResult) (moduleId : String) (rm : RoadmapModule) (m : BookModule)
    (h : attemptModuleGeneration settings online result moduleId rm = .ok m) :
    m.status = ModuleStatus.completed ∧ 300 ≤ m.wordCount := by
  rw [attemptModuleGeneration.eq_def] at h
  cases hg : generateWithAI settings online result with
  | error e => rw [hg] at h; exact absurd h (by simp)
  | ok content =>
    rw [hg] at h
    dsimp only at h
    by_cases hw : countWords content < 300
    · rw [if_pos hw] at h
      exact absurd h (by simp)
    · rw [if_neg hw] at h
      cases h
      refine ⟨rfl, ?_⟩
      simp only []
      omega

/-- Any module the retry recursion returns is either completed with at least
300 words, or error-status. -/
theorem retryGo_ok_cases (settings : APISettings) (online : Bool)
    (oracle : Nat → GenResult) (newId : Nat → String) (rm : RoadmapModule) :
    ∀ fuel attemptNumber m,
    generateModuleContentWithRetryGo settings online oracle newId rm fuel attemptNumber =
      .ok m →
    (m.status = ModuleStatus.completed → 300 ≤ m.wordCount) := by
  intro fuel
  induction fuel with
  | zero =>
    intro a m h
    rw [generateModuleContentWithRetryGo] at h
    exact absurd h (by simp)
  | succ f ih =>
    intro a m h
    rw [generateModuleContentWithRetryGo] at h
    cases hat : attemptModuleGeneration settings online (oracle a) (newId a) rm with
    | ok m' =>
      rw [hat] at h
      cases h
      exact fun _ => (attemptModuleGeneration_ok _ _ _ _ _ _ hat).2
    | error msg =>
      rw [hat] at h
      dsimp only at h
      by_cases hlt : a < MAX_MODULE_RETRIES
      · rw [if_pos hlt] at h
        exact ih (a + 1) m h
      · rw [if_neg hlt] at h
        cases h
        intro hc
        exact absurd hc (by rw [failedBookModule]; simp)

/-- One successful attempt on valid configuration with a too-short provider
response throws the `Generated content too short` error inside the try
block. -/
theorem attemptModuleGeneration_short (settings : APISettings) (online : Bool)
    (t : String) (moduleId : String) (rm : RoadmapModule)
    (hvalid : (validateSettings settings).isValid = true) (honline : online = true)
    (hw : countWords t < 300) :
    attemptModuleGeneration settings online (GenResult.ok t) moduleId rm =
      .error ("Generated content too short (" ++ toString (countWords t) ++
        " words). Minimum 300 words required.") := by
  have hg : generateWithAI settings online (GenResult.ok t) = .ok t := by
    simp [generateWithAI, hvalid, honline]
  rw [attemptModuleGeneration.eq_def, hg]
  dsimp only
  rw [if_pos hw]

/-! ### Claim C2 -/

/-- C2 (amended): `generateModuleContentWithRetry` never throws at all — for
every configuration, connectivity and per-attempt provider behaviour it
returns a module; every failure, configuration-class errors included, is
retried while `attemptNumber < MAX_MODULE_RETRIES` and, once the budget is
exhausted, the permanent failure is returned as a normal error-status module
carrying the last error message.  (The original claim's assertion that
configuration-class errors propagate as thrown exceptions is refuted by
`spec_C2_counterexample`.) -/
theorem spec_C2 (settings : APISettings) (online : Bool) (oracle : Nat → GenResult)
    (newId : Nat → String) (rm : RoadmapModule) :
    (∀ attemptNumber, ∃ m,
      generateModuleContentWithRetry settings online oracle newId rm attemptNumber =
        .ok m) ∧
    (∀ attemptNumber (msgs : Nat → String), attemptNumber ≤ MAX_MODULE_RETRIES →
      (∀ k, attemptModuleGeneration settings online (oracle k) (newId k) rm =
        .error (msgs k)) →
      generateModuleContentWithRetry settings online oracle newId rm attemptNumber =
        .ok (failedBookModule (newId MAX_MODULE_RETRIES) rm
          (msgs MAX_MODULE_RETRIES))) := by
  constructor
  · intro a
    rw [generateModuleContentWithRetry]
    exact retryGo_isOk settings online oracle newId rm (MAX_MODULE_RETRIES + 1) a (by omega)
  · intro a msgs ha hall
    rw [generateModuleContentWithRetry]
    exact retryGo_all_fail settings online oracle newId rm msgs hall
      (MAX_MODULE_RETRIES + 1) a (by omega) ha

def settingsC2 : APISettings :=
  { googleApiKey := "", zhipuApiKey := "", mistralApiKey := "",
    selectedProvider := "google", selectedModel := "gemini-2.5-flash" }

def rmC2 : RoadmapModule :=
  { id := "module_1", title := "Basics", objectives := ["obj"],
    estimatedTime := "1-2 hours", order := 1 }

/-- C2 counterexample to the original claim: with no Google API key
configured, the configuration-class error is *not* thrown to the caller; it
is retried like any other failure and finally absorbed into a normal
error-status module. -/
theorem spec_C2_counterexample :
    generateModuleContentWithRetry settingsC2 true (fun _ => GenResult.ok "sometext")
      (fun _ => "u1") rmC2 1 =
      .ok (failedBookModule "u1" rmC2
        "Configuration error: No API key configured for google") := by
  rfl

/-- C2 witness: the all-attempts-fail branch of `spec_C2` at a concrete
configuration error. -/
theorem spec_C2_witness :
    generateModuleContentWithRetry settingsC2 true (fun _ => GenResult.err "network flake")
      (fun _ => "u-c2") rmC2 1 =
      .ok (failedBookModule "u-c2" rmC2
        "Configuration error: No API key configured for google") :=
  (spec_C2 settingsC2 true (fun _ => GenResult.err "network flake") (fun _ => "u-c2")
      rmC2).2 1
    (fun _ => "Configuration error: No API key configured for google")
    (by decide) (fun _ => rfl)

/-! ### Claim C4 -/

/-- C4 (confirmed): a provider response below the 300-word minimum is never
accepted as a completed module; with budget remaining it is treated exactly
like any retryable failure (the computation continues at the next attempt
number), and on the last attempt it yields an error-status module whose
message states the generated word count and the 300-word minimum. -/
theorem spec_C4 (settings : APISettings) (online : Bool) (oracle : Nat → GenResult)
    (newId : Nat → String) (rm : RoadmapModule)
    (hvalid : (validateSettings settings).isValid = true) (honline : online = true) :
    (∀ attemptNumber m,
      generateModuleContentWithRetry settings online oracle newId rm attemptNumber =
        .ok m →
      m.status = ModuleStatus.completed → 300 ≤ m.wordCount) ∧
    (∀ attemptNumber t, attemptNumber < MAX_MODULE_RETRIES →
      oracle attemptNumber = .ok t → countWords t < 300 →
      generateModuleContentWithRetry settings online oracle newId rm attemptNumber =
        generateModuleContentWithRetry settings online oracle newId rm
          (attemptNumber + 1)) ∧
    (∀ t, oracle MAX_MODULE_RETRIES = .ok t → countWords t < 300 →
      generateModuleContentWithRetry settings online oracle newId rm
          MAX_MODULE_RETRIES =
        .ok (failedBookModule (newId MAX_MODULE_RETRIES) rm
          ("Generated content too short (" ++ toString (countWords t) ++
            " words). Minimum 300 words required."))) := by
  refine ⟨?_, ?_, ?_⟩
  · intro a m h
    rw [generateModuleContentWithRetry] at h
    exact retryGo_ok_cases settings online oracle newId rm _ a m h
  · intro a t hlt hora hw
    have hshort := attemptModuleGeneration_short settings online t (newId a) rm
      hvalid honline hw
    rw [generateModuleContentWithRetry, generateModuleContentWithRetry]
    rw [generateModuleContentWithRetryGo]
    rw [← hora] at hshort
    rw [hshort]
    dsimp only
    rw [if_pos hlt]
    exact retryGo_fuel_irrel settings online oracle newId rm MAX_MODULE_RETRIES
      (MAX_MODULE_RETRIES + 1) (a + 1) (by omega) (by omega)
  · intro t hora hw
    have hshort := attemptModuleGeneration_short settings online t
      (newId MAX_MODULE_RETRIES) rm hvalid honline hw
    rw [generateModuleContentWithRetry]
    rw [generateModuleContentWithRetryGo]
    rw [← hora] at hshort
    rw [hshort]
    dsimp only
    rw [if_neg (lt_irrefl MAX_MODULE_RETRIES)]

def settingsC4 : APISettings :=
  { googleApiKey := "key-4", zhipuApiKey := "", mistralApiKey := "",
    selectedProvider := "google", selectedModel := "gemini-2.5-flash" }

def rmC4 : RoadmapModule :=
  { id := "module_2", title := "Loops", objectives := ["obj"],
    estimatedTime := "1-2 hours", order := 2 }

/-- C4 witness: `spec_C4` at a concrete valid configuration and a concrete
three-word response, exhausting the budget at attempt 3. -/
theorem spec_C4_witness :
    generateModuleContentWithRetry settingsC4 true (fun _ => GenResult.ok "tiny words here")
      (fun _ => "u-c4") rmC4 MAX_MODULE_RETRIES =
      .ok (failedBookModule "u-c4" rmC4
        "Generated content too short (3 words). Minimum 300 words required.") := by
  have h := (spec_C4 settingsC4 true (fun _ => GenResult.ok "tiny words here")
    (fun _ => "u-c4") rmC4 (by rfl) rfl).2.2 "tiny words here" rfl (by decide)
  rw [h]
  rfl

/-! ### Claim C6 -/

/-- C6 counterexample to the original claim: the delays the code computes
grow by a factor of 2 between consecutive attempts, so the rate-limited
`baseRateLimitDelay * 1.5^attemptNumber` progression the claim asserts does
not hold (a 1.5 ratio would require `2 * retryDelay 2 = 3 * retryDelay 1`);
the code computes one delay formula for every error class. -/
theorem spec_C6_counterexample :
    retryDelay 2 = 2 * retryDelay 1 ∧ ¬ (2 * retryDelay 2 = 3 * retryDelay 1) := by
  decide

/-- C6 (amended): the unit-level retry delay before attempt `k + 1` is
`RETRY_DELAY_BASE * 2^(k-1)` for *every* error class — there is no jitter
term, no cap constant and no separate rate-limited formula in the module
retry path.  The delay doubles each attempt (hence is monotone, trivially
satisfying `nextDelay(k+1) >= nextDelay(k) - maxJitter`), and every delay
the code can actually schedule (`k < MAX_MODULE_RETRIES`) is at most
4000 ms, below the 30 s cap the spec postulates. -/
theorem spec_C6 (k : Nat) (hk : 1 ≤ k) :
    retryDelay (k + 1) = 2 * retryDelay k ∧
    retryDelay k ≤ retryDelay (k + 1) ∧
    (k < MAX_MODULE_RETRIES → retryDelay k ≤ 4000 ∧ retryDelay k ≤ 30000) := by
  obtain ⟨j, rfl⟩ : ∃ j, k = j + 1 := ⟨k - 1, by omega⟩
  have hdouble : retryDelay (j + 1 + 1) = 2 * retryDelay (j + 1) := by
    rw [retryDelay, retryDelay]
    simp only [Nat.add_sub_cancel]
    rw [pow_succ]
    ring
  refine ⟨hdouble, by omega, ?_⟩
  intro hlt
  rw [MAX_MODULE_RETRIES] at hlt
  have hj : j = 0 ∨ j = 1 := by omega
  rcases hj with rfl | rfl
  · exact ⟨by decide, by decide⟩
  · exact ⟨by decide, by decide⟩

/-- C6 witness: `spec_C6` at attempt 1. -/
theorem spec_C6_witness :
    retryDelay 2 = 2 * retryDelay 1 ∧ retryDelay 1 ≤ retryDelay 2 ∧
    (1 < MAX_MODULE_RETRIES → retryDelay 1 ≤ 4000 ∧ retryDelay 1 ≤ 30000) :=
  spec_C6 1 (by omega)

/-! ### Claim C10 -/

/-- C10 (confirmed): with a JS-truthy `bookId` that has an entry in the
active-request map, `cancelActiveRequests` aborts exactly that request and
removes exactly that entry; with a `bookId` that has no entry — not only
when `bookId` is omitted — the call falls through to the all-jobs branch,
aborting every active request and clearing the whole map. -/
theorem spec_C10 (b : String) (active : List String) (hb : ¬ b = "") :
    (b ∈ active →
      (cancelActiveRequests (some b) active).1 = [b] ∧
      ∀ k, k ∈ (cancelActiveRequests (some b) active).2 ↔ k ∈ active ∧ ¬ k = b) ∧
    (¬ b ∈ active → cancelActiveRequests (some b) active = (active, [])) ∧
    cancelActiveRequests none active = (active, []) := by
  refine ⟨fun hmem => ?_, fun hnot => ?_, rfl⟩
  · rw [cancelActiveRequests.eq_def]
    dsimp only
    rw [if_pos ⟨hb, hmem⟩]
    exact ⟨rfl, fun k => by simp [List.mem_filter]⟩
  · rw [cancelActiveRequests.eq_def]
    dsimp only
    rw [if_neg (fun hc => hnot hc.2)]

/-- C10 witness: `spec_C10` on a concrete two-entry map, once with a present
id and once with an absent one. -/
theorem spec_C10_witness :
    ((cancelActiveRequests (some "job-1") ["job-1", "job-2"]).1 = ["job-1"] ∧
      ("job-2" ∈ (cancelActiveRequests (some "job-1") ["job-1", "job-2"]).2 ↔
        "job-2" ∈ ["job-1", "job-2"] ∧ ¬ "job-2" = "job-1")) ∧
    cancelActiveRequests (some "job-9") ["job-1", "job-2"] =
      (["job-1", "job-2"], []) := by
  have h1 := spec_C10 "job-1" ["job-1", "job-2"] (by decide)
  have h9 := spec_C10 "job-9" ["job-1", "job-2"] (by decide)
  exact ⟨⟨(h1.1 (by decide)).1, (h1.1 (by decide)).2 "job-2"⟩, h9.2.1 (by decide)⟩

/-! ### Injectivity of the decimal printer (for module-id uniqueness) -/

def decodeDigitChar (c : Char) : Nat :=
  if c = '0' then 0 else if c = '1' then 1 else if c = '2' then 2
  else if c = '3' then 3 else if c = '4' then 4 else if c = '5' then 5
  else if c = '6' then 6 else if c = '7' then 7 else if c = '8' then 8
  else if c = '9' then 9 else 10

def ofDigitsRev (l : List Nat) : Nat :=
  l.foldr (fun d acc => d + 10 * acc) 0

theorem ofDigitsRev_cons (d : Nat) (l : List Nat) :
    ofDigitsRev (d :: l) = d + 10 * ofDigitsRev l := rfl

theorem ofDigitsRev_natDigitsRevGo :
    ∀ fuel n, n < 10 ^ fuel → ofDigitsRev (natDigitsRevGo fuel n) = n := by
  intro fuel
  induction fuel with
  | zero =>
    intro n h
    simp only [pow_zero, Nat.lt_one_iff] at h
    subst h
    rfl
  | succ f ih =>
    intro n h
    rw [natDigitsRevGo]
    by_cases hn : n = 0
    · subst hn
      rfl
    · rw [if_neg hn, ofDigitsRev_cons]
      have h10 : n / 10 < 10 ^ f := by
        rw [Nat.div_lt_iff_lt_mul (by norm_num)]
        rw [pow_succ] at h
        exact h
      rw [ih (n / 10) h10]
      omega

theorem natDigitsRevGo_lt :
    ∀ fuel n d, d ∈ natDigitsRevGo fuel n → d < 10 := by
  intro fuel
  induction fuel with
  | zero => intro n d h; simp [natDigitsRevGo] at h
  | succ f ih =>
    intro n d h
    rw [natDigitsRevGo] at h
    by_cases hn : n = 0
    · rw [if_pos hn] at h; simp at h
    · rw [if_neg hn] at h
      rcases List.mem_cons.mp h with rfl | h
      · exact Nat.mod_lt n (by norm_num)
      · exact ih (n / 10) d h

theorem decode_decDigitChar (d : Nat) (hd : d < 10) :
    decodeDigitChar (decDigitChar d) = d := by
  interval_cases d <;> rfl

theorem map_decode_digits (l : List Nat) (h : ∀ d ∈ l, d < 10) :
    (l.map decDigitChar).map decodeDigitChar = l := by
  induction l with
  | nil => rfl
  | cons a t ih =>
    rw [List.map_cons, List.map_cons,
      decode_decDigitChar a (h a (List.mem_cons_self a t)),
      ih (fun d hd => h d (List.mem_cons_of_mem a hd))]

theorem natToString_roundtrip (n : Nat) :
    ofDigitsRev (((natToString n).data.map decodeDigitChar).reverse) = n := by
  rw [natToString]
  by_cases hn : n = 0
  · rw [if_pos hn, hn]
    rfl
  · rw [if_neg hn]
    show ofDigitsRev ((((natDigitsRevGo n n).reverse.map decDigitChar).map
      decodeDigitChar).reverse) = n
    rw [map_decode_digits _ (fun d hd => natDigitsRevGo_lt n n d (List.mem_reverse.mp hd)),
      List.reverse_reverse]
    exact ofDigitsRev_natDigitsRevGo n n (Nat.lt_pow_self (by norm_num) n)

theorem natToString_injective : Function.Injective natToString := by
  intro a b h
  have ha := natToString_roundtrip a
  have hb := natToString_roundtrip b
  rw [← ha, ← hb, h]

theorem string_append_left_cancel {p x y : String} (h : p ++ x = p ++ y) : x = y := by
  have hdata : (p ++ x).data = (p ++ y).data := congrArg String.data h
  rw [String.data_append, String.data_append] at hdata
  have hxy := List.append_cancel_left hdata
  cases x
  cases y
  exact congrArg String.mk hxy

theorem moduleId_injective :
    Function.Injective (fun k : Nat => "module_" ++ natToString k) := by
  intro a b h
  exact natToString_injective (string_append_left_cancel h)

/-! ### Claim C8 -/

theorem processModulesFrom_map_order (ms : List ModuleJson) :
    ∀ i, (processModulesFrom i ms).map (·.order) = List.range' (i + 1) ms.length := by
  induction ms with
  | nil => intro i; rfl
  | cons m rest ih =>
    intro i
    rw [processModulesFrom, List.map_cons, List.length_cons, List.range'_succ]
    rw [ih (i + 1)]
    rfl

theorem processModulesFrom_map_id (ms : List ModuleJson) :
    ∀ i, (processModulesFrom i ms).map (·.id) =
      (List.range' (i + 1) ms.length).map (fun k => "module_" ++ natToString k) := by
  induction ms with
  | nil => intro i; rfl
  | cons m rest ih =>
    intro i
    rw [processModulesFrom, List.map_cons, List.length_cons, List.range'_succ,
      List.map_cons]
    rw [ih (i + 1)]
    rfl

theorem processModulesFrom_length (ms : List ModuleJson) :
    ∀ i, (processModulesFrom i ms).length = ms.length := by
  induction ms with
  | nil => intro i; rfl
  | cons m rest ih =>
    intro i
    rw [processModulesFrom, List.length_cons, List.length_cons, ih (i + 1)]

/-- C8 (amended): for every provider response, JSON parser behaviour and
session, whenever `parseRoadmapResponse` succeeds the returned roadmap
carries contiguous 1-based order indices, module ids that are unique within
the roadmap, and `totalModules` equal to the module count; a parsed object
with no `modules` field is rejected with the `missing modules array` error;
and the per-module defaults fill missing objectives and time-estimate
fields.  (The original claim also asserted that an *empty* modules array is
rejected; `spec_C8_counterexample` shows an empty array is accepted,
yielding a roadmap with zero modules.) -/
theorem spec_C8 (parseJson : String → Except String RoadmapJson)
    (session : BookSession) (response : String) :
    (∀ roadmap, parseRoadmapResponse parseJson session response = .ok roadmap →
      roadmap.modules.map (·.order) = List.range' 1 roadmap.modules.length ∧
      (roadmap.modules.map (·.id)).Nodup ∧
      roadmap.totalModules = roadmap.modules.length) ∧
    (∀ span j, matchJsonSpan (cleanRoadmapResponse response) = some span →
      parseJson (String.mk span) = .ok j → j.modules = none →
      parseRoadmapResponse parseJson session response =
        .error "Invalid roadmap: missing modules array") ∧
    (∀ i mj, mj.objectives = none →
      (processModule i mj).objectives = ["Learn " ++ jsStr mj.title]) ∧
    (∀ i mj, mj.estimatedTime = none →
      (processModule i mj).estimatedTime = "1-2 hours") := by
  refine ⟨?_, ?_, ?_, ?_⟩
  · intro roadmap h
    rw [parseRoadmapResponse] at h
    cases hspan : matchJsonSpan (cleanRoadmapResponse response) with
    | none => rw [hspan] at h; exact absurd h (by simp)
    | some span =>
      rw [hspan] at h
      dsimp only at h
      cases hpj : parseJson (String.mk span) with
      | error e => rw [hpj] at h; exact absurd h (by simp)
      | ok j =>
        rw [hpj] at h
        dsimp only at h
        cases hm : j.modules with
        | none => rw [hm] at h; exact absurd h (by simp)
        | some ms =>
          rw [hm] at h
          dsimp only at h
          cases h
          refine ⟨?_, ?_, ?_⟩
          · show (processModulesFrom 0 ms).map (·.order) =
              List.range' 1 (processModulesFrom 0 ms).length
            rw [processModulesFrom_length ms 0, processModulesFrom_map_order ms 0]
          · show ((processModulesFrom 0 ms).map (·.id)).Nodup
            rw [processModulesFrom_map_id ms 0]
            exact (List.nodup_range' 1 ms.length).map moduleId_injective
          · rfl
  · intro span j hspan hpj hm
    rw [parseRoadmapResponse, hspan]
    dsimp only
    rw [hpj]
    dsimp only
    rw [hm]
  · intro i mj hobj
    rw [processModule, hobj]
  · intro i mj hest
    rw [processModule, hest]

def parseJsonC8 : String → Except String RoadmapJson := fun s =>
  if s = "\x7b\"modules\":[\x7b\x7d,\x7b\x7d]\x7d" then
    .ok { modules := some [{}, {}] }
  else .error "SyntaxError: Unexpected token"

def responseC8 : String := "```json\n\x7b\"modules\":[\x7b\x7d,\x7b\x7d]\x7d\n```"

def roadmapC8 : BookRoadmap :=
  { modules :=
      [{ id := "module_1", title := "Module 1", objectives := ["Learn undefined"],
         estimatedTime := "1-2 hours", order := 1 },
       { id := "module_2", title := "Module 2", objectives := ["Learn undefined"],
         estimatedTime := "1-2 hours", order := 2 }],
    totalModules := 2, estimatedReadingTime := "4 hours",
    difficultyLevel := "intermediate" }

/-- C8 witness: `spec_C8` on a concrete code-fenced response with two
module objects. -/
theorem spec_C8_witness :
    roadmapC8.modules.map (·.order) = List.range' 1 roadmapC8.modules.length ∧
    (roadmapC8.modules.map (·.id)).Nodup ∧
    roadmapC8.totalModules = roadmapC8.modules.length :=
  (spec_C8 parseJsonC8 { goal := "g" } responseC8).1 roadmapC8 (by rfl)

def parseJsonC8e : String → Except String RoadmapJson := fun s =>
  if s = "\x7b\"modules\":[]\x7d" then .ok { modules := some [] }
  else .error "SyntaxError: Unexpected token"

/-- C8 counterexample to the original claim: a response whose `modules`
array is present but *empty* is not rejected — `parseRoadmapResponse`
returns a roadmap with zero modules (the recovery variant checks only
`!roadmap.modules || !Array.isArray(roadmap.modules)`, and an empty array is
JS-truthy). -/
theorem spec_C8_counterexample :
    parseRoadmapResponse parseJsonC8e { goal := "g" } "\x7b\"modules\":[]\x7d" =
      .ok { modules := [], totalModules := 0, estimatedReadingTime := "0 hours",
            difficultyLevel := "intermediate" } := by
  rfl

/-! ### Lemmas about the recovery loop -/

theorem recoveryLoop_attempted (settings : APISettings) (online : Bool)
    (oracle : String → Nat → GenResult) (newId : String → Nat → String)
    (bookId : String) (total : Nat) :
    ∀ (toGen : List RoadmapModule) (i : Nat) (st : RecoveryState),
    (recoveryLoop settings online oracle newId bookId total toGen i st).attempted =
      st.attempted ++ toGen.map (·.id) := by
  intro toGen
  induction toGen with
  | nil => intro i st; simp [recoveryLoop]
  | cons rm rest ih =>
    intro i st
    simp only [recoveryLoop]
    cases hgen : generateModuleContentWithRetry settings online (oracle rm.id)
        (newId rm.id) rm 1 with
    | ok newModule =>
      dsimp only
      by_cases hst : newModule.status = ModuleStatus.completed
      · rw [if_pos hst, ih]
        simp
      · rw [if_neg hst, ih]
        simp
    | error msg =>
      dsimp only
      rw [ih]
      simp

theorem recoveryLoop_store_key (settings : APISettings) (online : Bool)
    (oracle : String → Nat → GenResult) (newId : String → Nat → String)
    (bookId : String) (total : Nat) :
    ∀ (toGen : List RoadmapModule) (i : Nat) (st : RecoveryState),
    (¬ toGen = [] ∨ (mapGet st.store.mem bookId).isSome = true) →
    (mapGet (recoveryLoop settings online oracle newId bookId total
      toGen i st).store.mem bookId).isSome = true := by
  intro toGen
  induction toGen with
  | nil =>
    intro i st h
    rcases h with h | h
    · exact absurd rfl h
    · simpa [recoveryLoop] using h
  | cons rm rest ih =>
    intro i st _
    simp only [recoveryLoop]
    cases hgen : generateModuleContentWithRetry settings online (oracle rm.id)
        (newId rm.id) rm 1 with
    | ok newModule =>
      dsimp only
      by_cases hst : newModule.status = ModuleStatus.completed
      · rw [if_pos hst]
        apply ih
        right
        simp [saveCheckpoint, mapGet_mapSet_self]
      · rw [if_neg hst]
        apply ih
        right
        simp [saveCheckpoint, mapGet_mapSet_self]
    | error msg =>
      dsimp only
      apply ih
      right
      simp [saveCheckpoint, mapGet_mapSet_self]

/-- The checkpoint invariant of spec §3: both id sets drawn from the plan's
ids, and disjoint. -/
def GoodCheckpoint (ids : List String) (cp : GenerationCheckpoint) : Prop :=
  (∀ x ∈ cp.completedModuleIds, x ∈ ids) ∧
  (∀ x ∈ cp.failedModuleIds, x ∈ ids) ∧
  (∀ x ∈ cp.completedModuleIds, ¬ x ∈ cp.failedModuleIds)

theorem recoveryLoop_checkpoints (settings : APISettings) (online : Bool)
    (oracle : String → Nat → GenResult) (newId : String → Nat → String)
    (bookId : String) (total : Nat) (ids : List String) :
    ∀ (toGen : List RoadmapModule) (i : Nat) (st : RecoveryState),
    (∀ x ∈ st.completedModuleIds, x ∈ ids) →
    (∀ x ∈ st.failedModuleIds, x ∈ ids) →
    (∀ x ∈ st.completedModuleIds, ¬ x ∈ st.failedModuleIds) →
    (∀ rm ∈ toGen, rm.id ∈ ids) →
    (∀ rm ∈ toGen, ¬ rm.id ∈ st.completedModuleIds) →
    ((toGen.map (·.id)).Nodup) →
    (∀ cp ∈ st.checkpointsSaved, GoodCheckpoint ids cp) →
    ∀ cp ∈ (recoveryLoop settings online oracle newId bookId total
      toGen i st).checkpointsSaved, GoodCheckpoint ids cp := by
  intro toGen
  induction toGen with
  | nil =>
    intro i st _ _ _ _ _ _ hprev
    simpa [recoveryLoop] using hprev
  | cons rm rest ih =>
    intro i st h1 h2 h3 h4 h5 h6 hprev
    have hrmids : rm.id ∈ ids := h4 rm (List.mem_cons_self rm rest)
    have hrmnc : ¬ rm.id ∈ st.completedModuleIds := h5 rm (List.mem_cons_self rm rest)
    have h6' : (rest.map (·.id)).Nodup := (List.nodup_cons.mp h6).2
    have hrmrest : ¬ rm.id ∈ rest.map (·.id) := (List.nodup_cons.mp h6).1
    simp only [recoveryLoop]
    cases hgen : generateModuleContentWithRetry settings online (oracle rm.id)
        (newId rm.id) rm 1 with
    | ok newModule =>
      dsimp only
      by_cases hst : newModule.status = ModuleStatus.completed
      · rw [if_pos hst]
        apply ih (i + 1)
        · intro x hx
          rcases mem_setAdd.mp hx with hx | rfl
          · exact h1 x hx
          · exact hrmids
        · intro x hx
          exact h2 x (mem_setDelete.mp hx).1
        · intro x hx hx'
          rcases mem_setAdd.mp hx with hx | rfl
          · exact h3 x hx (mem_setDelete.mp hx').1
          · exact (mem_setDelete.mp hx').2 rfl
        · intro rm' hrm'
          exact h4 rm' (List.mem_cons_of_mem rm hrm')
        · intro rm' hrm' hx
          rcases mem_setAdd.mp hx with hx | hx
          · exact h5 rm' (List.mem_cons_of_mem rm hrm') hx
          · exact hrmrest (hx ▸ List.mem_map_of_mem (·.id) hrm')
        · exact h6'
        · intro cp hcp
          rcases List.mem_append.mp hcp with hcp | hcp
          · exact hprev cp hcp
          · rcases List.mem_singleton.mp hcp with rfl
            refine ⟨?_, ?_, ?_⟩
            · intro x hx
              rcases mem_setAdd.mp hx with hx | rfl
              · exact h1 x hx
              · exact hrmids
            · intro x hx
              exact h2 x (mem_setDelete.mp hx).1
            · intro x hx hx'
              rcases mem_setAdd.mp hx with hx | rfl
              · exact h3 x hx (mem_setDelete.mp hx').1
              · exact (mem_setDelete.mp hx').2 rfl
      · rw [if_neg hst]
        apply ih (i + 1)
        · exact h1
        · intro x hx
          rcases mem_setAdd.mp hx with hx | rfl
          · exact h2 x hx
          · exact hrmids
        · intro x hx hx'
          rcases mem_setAdd.mp hx' with hx' | rfl
          · exact h3 x hx hx'
          · exact hrmnc hx
        · intro rm' hrm'
          exact h4 rm' (List.mem_cons_of_mem rm hrm')
        · intro rm' hrm'
          exact h5 rm' (List.mem_cons_of_mem rm hrm')
        · exact h6'
        · intro cp hcp
          rcases List.mem_append.mp hcp with hcp | hcp
          · exact hprev cp hcp
          · rcases List.mem_singleton.mp hcp with rfl
            refine ⟨h1, ?_, ?_⟩
            · intro x hx
              rcases mem_setAdd.mp hx with hx | rfl
              · exact h2 x hx
              · exact hrmids
            · intro x hx hx'
              rcases mem_setAdd.mp hx' with hx' | rfl
              · exact h3 x hx hx'
              · exact hrmnc hx
    | error msg =>
      dsimp only
      apply ih (i + 1)
      · exact h1
      · intro x hx
        rcases mem_setAdd.mp hx with hx | rfl
        · exact h2 x hx
        · exact hrmids
      · intro x hx hx'
        rcases mem_setAdd.mp hx' with hx' | rfl
        · exact h3 x hx hx'
        · exact hrmnc hx
      · intro rm' hrm'
        exact h4 rm' (List.mem_cons_of_mem rm hrm')
      · intro rm' hrm'
        exact h5 rm' (List.mem_cons_of_mem rm hrm')
      · exact h6'
      · intro cp hcp
        rcases List.mem_append.mp hcp with hcp | hcp
        · exact hprev cp hcp
        · rcases List.mem_singleton.mp hcp with rfl
          refine ⟨h1, ?_, ?_⟩
          · intro x hx
            rcases mem_setAdd.mp hx with hx | rfl
            · exact h2 x hx
            · exact hrmids
          · intro x hx hx'
            rcases mem_setAdd.mp hx' with hx' | rfl
            · exact h3 x hx hx'
            · exact hrmnc hx

/-! ### Claim C1 -/

/-- C1 (amended): for every job whose plan exists, the effective
already-completed set is `effectiveCompletedIds` — the checkpoint's
completed list when a checkpoint exists, and otherwise the `planUnitId`s of
the units the current job already shows as completed (*not* their union:
when a checkpoint is present the in-memory completed units are ignored, see
`spec_C1_counterexample`) — and generation is attempted exactly for the
planned units outside that set, in plan order; no member of the effective
set is ever attempted. -/
theorem spec_C1 (settings : APISettings) (online : Bool)
    (oracle : String → Nat → GenResult) (newId : String → Nat → String)
    (store : CheckpointStore) (book : BookProject) (r : BookRoadmap)
    (hr : book.roadmap = some r) :
    Except.map (fun res => res.attempted)
      (generateAllModulesWithRecovery settings online oracle newId store book) =
      .ok ((modulesToGenerate r (loadCheckpoint store book.id) book.modules).map
        (·.id)) ∧
    ∀ x ∈ effectiveCompletedIds (loadCheckpoint store book.id) book.modules,
      ¬ x ∈ (modulesToGenerate r (loadCheckpoint store book.id) book.modules).map
        (·.id) := by
  constructor
  · rw [generateAllModulesWithRecovery.eq_def, hr]
    dsimp only
    by_cases h0 : (modulesToGenerate r (loadCheckpoint store book.id)
      book.modules).length = 0
    · rw [if_pos h0, List.length_eq_zero.mp h0]
      rfl
    · rw [if_neg h0]
      by_cases hf : (recoveryLoop settings online oracle newId book.id
          r.modules.length
          (modulesToGenerate r (loadCheckpoint store book.id) book.modules) 0
          { completedModules :=
              book.modules.filter (fun m => m.status = ModuleStatus.completed),
            completedModuleIds :=
              effectiveCompletedIds (loadCheckpoint store book.id) book.modules,
            failedModuleIds := effectiveFailedIds (loadCheckpoint store book.id),
            store := store,
            updates := [{ status := some "generating_content", progress := some 15 }],
            checkpointsSaved := [], attempted := [] }).completedModules.any
          (fun m => m.status = ModuleStatus.error) = true
      · rw [if_pos hf]
        rw [Except.map]
        dsimp only
        rw [recoveryLoop_attempted]
        simp
      · rw [if_neg hf]
        rw [Except.map]
        dsimp only
        rw [recoveryLoop_attempted]
        simp
  · intro x hx hx'
    rcases List.mem_map.mp hx' with ⟨rm, hrm, rfl⟩
    rw [modulesToGenerate, List.mem_filter] at hrm
    have := hrm.2
    simp at this
    exact this hx

def settingsC1 : APISettings :=
  { googleApiKey := "key-1", zhipuApiKey := "", mistralApiKey := "",
    selectedProvider := "google", selectedModel := "gemini-2.5-flash" }

def modB : BookModule :=
  { id := "mB", roadmapModuleId := "B", title := "B", content := "done",
    wordCount := 400, status := ModuleStatus.completed }

def bookC1 : BookProject :=
  { id := "b1", title := "T1",
    roadmap := some
      { modules :=
          [{ id := "A", title := "A", objectives := [], estimatedTime := "1-2 hours",
             order := 1 },
           { id := "B", title := "B", objectives := [], estimatedTime := "1-2 hours",
             order := 2 }],
        totalModules := 2, estimatedReadingTime := "4 hours",
        difficultyLevel := "intermediate" },
    modules := [modB] }

def cpC1 : GenerationCheckpoint :=
  { bookId := "b1", completedModuleIds := ["A"], failedModuleIds := [],
    lastSuccessfulIndex := 0 }

def storeC1 : CheckpointStore :=
  { mem := [("b1", cpC1)], localStore := [("checkpoint_b1", cpC1)] }

/-- C1 counterexample to the original claim: the job's unit list already
shows planned unit `B` as completed, and the checkpoint records `A`; the
union the claim asserts would be `A, B`, leaving nothing to generate — but
the code takes only the checkpoint's list and re-attempts generation for
`B`, invoking the provider chain for a unit the job already completed. -/
theorem spec_C1_counterexample :
    (modB.status = ModuleStatus.completed ∧ modB.roadmapModuleId = "B" ∧
      modB ∈ bookC1.modules) ∧
    Except.map (fun res => res.attempted)
      (generateAllModulesWithRecovery settingsC1 true (fun _ _ => GenResult.err "boom")
        (fun _ _ => "u") storeC1 bookC1) = .ok ["B"] :=
  ⟨⟨rfl, rfl, List.mem_cons_self modB []⟩, rfl⟩

def bookC1w : BookProject :=
  { id := "b1w", title := "T1w",
    roadmap := some
      { modules :=
          [{ id := "module_1", title := "M1", objectives := [],
             estimatedTime := "1-2 hours", order := 1 },
           { id := "module_2", title := "M2", objectives := [],
             estimatedTime := "1-2 hours", order := 2 },
           { id := "module_3", title := "M3", objectives := [],
             estimatedTime := "1-2 hours", order := 3 },
           { id := "module_4", title := "M4", objectives := [],
             estimatedTime := "1-2 hours", order := 4 }],
        totalModules := 4, estimatedReadingTime := "8 hours",
        difficultyLevel := "intermediate" },
    modules := [] }

def cpC1w : GenerationCheckpoint :=
  { bookId := "b1w", completedModuleIds := ["module_1", "module_2"],
    failedModuleIds := ["module_3"], lastSuccessfulIndex := 1 }

def storeC1w : CheckpointStore :=
  { mem := [("b1w", cpC1w)], localStore := [] }

/-- C1 witness: `spec_C1` at the claim's resume scenario — checkpoint
completed `module_1, module_2`, failed `module_3`, plan of four units:
generation is attempted exactly for `module_3` and `module_4`, never for
the completed two. -/
theorem spec_C1_witness :
    Except.map (fun res => res.attempted)
      (generateAllModulesWithRecovery settingsC1 true (fun _ _ => GenResult.err "boom")
        (fun _ _ => "u") storeC1w bookC1w) = .ok ["module_3", "module_4"] := by
  have h := (spec_C1 settingsC1 true (fun _ _ => GenResult.err "boom") (fun _ _ => "u")
    storeC1w bookC1w
    { modules :=
        [{ id := "module_1", title := "M1", objectives := [],
           estimatedTime := "1-2 hours", order := 1 },
         { id := "module_2", title := "M2", objectives := [],
           estimatedTime := "1-2 hours", order := 2 },
         { id := "module_3", title := "M3", objectives := [],
           estimatedTime := "1-2 hours", order := 3 },
         { id := "module_4", title := "M4", objectives := [],
           estimatedTime := "1-2 hours", order := 4 }],
      totalModules := 4, estimatedReadingTime := "8 hours",
      difficultyLevel := "intermediate" } rfl).1
  rw [h]
  rfl

/-! ### Claim C5 -/

/-- C5 (confirmed): when every planned unit id is already in the effective
completed set, `generateAllModulesWithRecovery` is an idempotent no-op: it
emits only the entry update and the roadmap-completed update at progress 90
(no update carries a modules field, so the unit list is untouched), attempts
no generation (the provider gateway is never invoked), saves no checkpoint,
clears nothing, and returns immediately. -/
theorem spec_C5 (settings : APISettings) (online : Bool)
    (oracle : String → Nat → GenResult) (newId : String → Nat → String)
    (store : CheckpointStore) (book : BookProject) (r : BookRoadmap)
    (hr : book.roadmap = some r)
    (hall : ∀ rm ∈ r.modules,
      rm.id ∈ effectiveCompletedIds (loadCheckpoint store book.id) book.modules) :
    generateAllModulesWithRecovery settings online oracle newId store book =
      .ok { store := store,
            updates := [{ status := some "generating_content", progress := some 15 },
                        { status := some "roadmap_completed", progress := some 90 }],
            checkpointsSaved := [], attempted := [],
            modules := book.modules.filter (fun m => m.status = ModuleStatus.completed),
            cleared := false } := by
  have hnil : modulesToGenerate r (loadCheckpoint store book.id) book.modules = [] := by
    rw [modulesToGenerate, List.filter_eq_nil_iff]
    intro rm hrm
    simp [hall rm hrm]
  rw [generateAllModulesWithRecovery.eq_def, hr]
  dsimp only
  rw [hnil]
  rfl

def roadC5 : BookRoadmap :=
  { modules :=
      [{ id := "module_1", title := "M1", objectives := [],
         estimatedTime := "1-2 hours", order := 1 },
       { id := "module_2", title := "M2", objectives := [],
         estimatedTime := "1-2 hours", order := 2 }],
    totalModules := 2, estimatedReadingTime := "4 hours",
    difficultyLevel := "intermediate" }

def bookC5 : BookProject :=
  { id := "b5", title := "T5", roadmap := some roadC5, modules := [] }

def cpC5 : GenerationCheckpoint :=
  { bookId := "b5", completedModuleIds := ["module_1", "module_2"],
    failedModuleIds := [], lastSuccessfulIndex := 1 }

def storeC5 : CheckpointStore :=
  { mem := [("b5", cpC5)], localStore := [] }

/-- C5 witness: `spec_C5` after a fully successful run recorded in the
checkpoint. -/
theorem spec_C5_witness :
    generateAllModulesWithRecovery settingsC2 true (fun _ _ => GenResult.err "never")
      (fun _ _ => "u5") storeC5 bookC5 =
      .ok { store := storeC5,
            updates := [{ status := some "generating_content", progress := some 15 },
                        { status := some "roadmap_completed", progress := some 90 }],
            checkpointsSaved := [], attempted := [], modules := [],
            cleared := false } :=
  spec_C5 settingsC2 true (fun _ _ => GenResult.err "never") (fun _ _ => "u5")
    storeC5 bookC5 roadC5 rfl (by decide)

/-! ### Claim C3 -/

/-- C3 (confirmed): after a generation loop that ran (at least one unit was
attempted), if any error-status unit is in the resulting list the job gets
the `error` status update whose message summarizes the failed and successful
counts (`errorSummaryUpdate`), the checkpoint is not cleared and is still
present; if no error-status unit exists, the checkpoint is cleared (gone
from both stores) and the final update is the roadmap-completed one at
progress 90 (`readyForAssemblyUpdate`). -/
theorem spec_C3 (settings : APISettings) (online : Bool)
    (oracle : String → Nat → GenResult) (newId : String → Nat → String)
    (store : CheckpointStore) (book : BookProject) (r : BookRoadmap)
    (hr : book.roadmap = some r)
    (hne : ¬ Except.map (fun res => res.attempted)
      (generateAllModulesWithRecovery settings online oracle newId store book) =
        .ok []) :
    (Except.map (fun res => res.modules.any (fun m => m.status = ModuleStatus.error))
        (generateAllModulesWithRecovery settings online oracle newId store book) =
        .ok true →
      Except.map (fun res =>
          (res.cleared, hasCheckpoint res.store book.id, res.updates.getLast?))
        (generateAllModulesWithRecovery settings online oracle newId store book) =
      Except.map (fun res => (false, true, some (errorSummaryUpdate res.modules)))
        (generateAllModulesWithRecovery settings online oracle newId store book)) ∧
    (Except.map (fun res => res.modules.any (fun m => m.status = ModuleStatus.error))
        (generateAllModulesWithRecovery settings online oracle newId store book) =
        .ok false →
      Except.map (fun res =>
          (res.cleared, hasCheckpoint res.store book.id, res.updates.getLast?))
        (generateAllModulesWithRecovery settings online oracle newId store book) =
      Except.map (fun res => (true, false, some (readyForAssemblyUpdate res.modules)))
        (generateAllModulesWithRecovery settings online oracle newId store book)) := by
  rw [generateAllModulesWithRecovery.eq_def, hr] at hne ⊢
  dsimp only at hne ⊢
  by_cases h0 : (modulesToGenerate r (loadCheckpoint store book.id)
    book.modules).length = 0
  · rw [if_pos h0] at hne
    exact absurd rfl hne
  · rw [if_neg h0] at hne ⊢
    have hkey : (mapGet (recoveryLoop settings online oracle newId book.id
        r.modules.length
        (modulesToGenerate r (loadCheckpoint store book.id) book.modules) 0
        { completedModules :=
            book.modules.filter (fun m => m.status = ModuleStatus.completed),
          completedModuleIds :=
            effectiveCompletedIds (loadCheckpoint store book.id) book.modules,
          failedModuleIds := effectiveFailedIds (loadCheckpoint store book.id),
          store := store,
          updates := [{ status := some "generating_content", progress := some 15 }],
          checkpointsSaved := [], attempted := [] }).store.mem book.id).isSome =
        true := by
      apply recoveryLoop_store_key
      left
      intro hcon
      exact h0 (by rw [hcon]; rfl)
    by_cases hf : (recoveryLoop settings online oracle newId book.id
        r.modules.length
        (modulesToGenerate r (loadCheckpoint store book.id) book.modules) 0
        { completedModules :=
            book.modules.filter (fun m => m.status = ModuleStatus.completed),
          completedModuleIds :=
            effectiveCompletedIds (loadCheckpoint store book.id) book.modules,
          failedModuleIds := effectiveFailedIds (loadCheckpoint store book.id),
          store := store,
          updates := [{ status := some "generating_content", progress := some 15 }],
          checkpointsSaved := [], attempted := [] }).completedModules.any
        (fun m => m.status = ModuleStatus.error) = true
    · rw [if_pos hf]
      constructor
      · intro _
        rw [Except.map, Except.map]
        dsimp only
        rw [List.getLast?_concat]
        rw [hasCheckpoint, hkey]
        rfl
      · intro hcon
        rw [Except.map] at hcon
        dsimp only at hcon
        rw [hf] at hcon
        exact absurd (Except.ok.inj hcon) (by simp)
    · rw [if_neg hf]
      constructor
      · intro hcon
        rw [Except.map] at hcon
        dsimp only at hcon
        have := Except.ok.inj hcon
        exact absurd this hf
      · intro _
        rw [Except.map, Except.map]
        dsimp only
        rw [List.getLast?_concat]
        rw [hasCheckpoint]
        rw [clearCheckpoint]
        dsimp only
        rw [mapGet_mapDelete_self, mapGet_mapDelete_self]
        rfl

def settingsC3 : APISettings :=
  { googleApiKey := "key-3", zhipuApiKey := "", mistralApiKey := "",
    selectedProvider := "google", selectedModel := "gemini-2.5-flash" }

def rmC3 : RoadmapModule :=
  { id := "module_1", title := "M1", objectives := [],
    estimatedTime := "1-2 hours", order := 1 }

def roadC3 : BookRoadmap :=
  { modules := [rmC3], totalModules := 1, estimatedReadingTime := "2 hours",
    difficultyLevel := "intermediate" }

def bookC3 : BookProject :=
  { id := "b3", title := "T3", roadmap := some roadC3, modules := [] }

/-- C3 witness: `spec_C3` on a one-unit plan whose provider calls always
fail: the run ends with the error-summary update (`1 failed module(s)`,
`0 modules` generated), the checkpoint still present, nothing cleared. -/
theorem spec_C3_witness :
    Except.map (fun res =>
        (res.cleared, hasCheckpoint res.store bookC3.id, res.updates.getLast?))
      (generateAllModulesWithRecovery settingsC3 true (fun _ _ => GenResult.err "boom")
        (fun _ _ => "u3") { mem := [], localStore := [] } bookC3) =
      .ok (false, true, some (errorSummaryUpdate
        [failedBookModule "u3" rmC3 "boom"])) := by
  have h := (spec_C3 settingsC3 true (fun _ _ => GenResult.err "boom")
    (fun _ _ => "u3") { mem := [], localStore := [] } bookC3 roadC3 rfl
    (by
      intro hcon
      rw [show Except.map (fun res => res.attempted)
          (generateAllModulesWithRecovery settingsC3 true
            (fun _ _ => GenResult.err "boom") (fun _ _ => "u3")
            { mem := [], localStore := [] } bookC3) =
          Except.ok ["module_1"] from rfl] at hcon
      simp at hcon)).1 (by rfl)
  rw [h]
  rfl

/-! ### Claim C9 -/

/-- C9 (confirmed): given a sane starting point — plan ids unique, the
effective completed/failed sets drawn from the plan's ids and disjoint —
every checkpoint written by `saveCheckpoint` during the generation loop
keeps the completed and failed planUnitId sets disjoint and both within the
roadmap's planUnitIds. -/
theorem spec_C9 (settings : APISettings) (online : Bool)
    (oracle : String → Nat → GenResult) (newId : String → Nat → String)
    (store : CheckpointStore) (book : BookProject) (r : BookRoadmap)
    (hr : book.roadmap = some r)
    (hnodup : (r.modules.map (·.id)).Nodup)
    (hCsub : ∀ x ∈ effectiveCompletedIds (loadCheckpoint store book.id) book.modules,
      x ∈ r.modules.map (·.id))
    (hFsub : ∀ x ∈ effectiveFailedIds (loadCheckpoint store book.id),
      x ∈ r.modules.map (·.id))
    (hdisj : ∀ x ∈ effectiveCompletedIds (loadCheckpoint store book.id) book.modules,
      ¬ x ∈ effectiveFailedIds (loadCheckpoint store book.id)) :
    ∀ l, Except.map (fun res => res.checkpointsSaved)
        (generateAllModulesWithRecovery settings online oracle newId store book) =
        .ok l →
      ∀ cp ∈ l, GoodCheckpoint (r.modules.map (·.id)) cp := by
  intro l hl
  rw [generateAllModulesWithRecovery.eq_def, hr] at hl
  dsimp only at hl
  by_cases h0 : (modulesToGenerate r (loadCheckpoint store book.id)
    book.modules).length = 0
  · rw [if_pos h0] at hl
    rw [Except.map] at hl
    dsimp only at hl
    have := Except.ok.inj hl
    rw [← this]
    intro cp hcp
    exact absurd hcp (List.not_mem_nil cp)
  · rw [if_neg h0] at hl
    have hmain : ∀ cp ∈ (recoveryLoop settings online oracle newId book.id
        r.modules.length
        (modulesToGenerate r (loadCheckpoint store book.id) book.modules) 0
        { completedModules :=
            book.modules.filter (fun m => m.status = ModuleStatus.completed),
          completedModuleIds :=
            effectiveCompletedIds (loadCheckpoint store book.id) book.modules,
          failedModuleIds := effectiveFailedIds (loadCheckpoint store book.id),
          store := store,
          updates := [{ status := some "generating_content", progress := some 15 }],
          checkpointsSaved := [], attempted := [] }).checkpointsSaved,
        GoodCheckpoint (r.modules.map (·.id)) cp := by
      apply recoveryLoop_checkpoints
      · exact hCsub
      · exact hFsub
      · exact hdisj
      · intro rm hrm
        rw [modulesToGenerate, List.mem_filter] at hrm
        exact List.mem_map_of_mem (·.id) hrm.1
      · intro rm hrm
        rw [modulesToGenerate, List.mem_filter] at hrm
        have := hrm.2
        simpa using this
      · have hsub : (modulesToGenerate r (loadCheckpoint store book.id)
            book.modules).Sublist r.modules := by
          rw [modulesToGenerate]
          exact List.filter_sublist _
        exact hnodup.sublist (hsub.map (·.id))
      · intro cp hcp
        exact absurd hcp (List.not_mem_nil cp)
    by_cases hf : (recoveryLoop settings online oracle newId book.id
        r.modules.length
        (modulesToGenerate r (loadCheckpoint store book.id) book.modules) 0
        { completedModules :=
            book.modules.filter (fun m => m.status = ModuleStatus.completed),
          completedModuleIds :=
            effectiveCompletedIds (loadCheckpoint store book.id) book.modules,
          failedModuleIds := effectiveFailedIds (loadCheckpoint store book.id),
          store := store,
          updates := [{ status := some "generating_content", progress := some 15 }],
          checkpointsSaved := [], attempted := [] }).completedModules.any
        (fun m => m.status = ModuleStatus.error) = true
    · rw [if_pos hf] at hl
      rw [Except.map] at hl
      dsimp only at hl
      rw [← Except.ok.inj hl]
      exact hmain
    · rw [if_neg hf] at hl
      rw [Except.map] at hl
      dsimp only at hl
      rw [← Except.ok.inj hl]
      exact hmain

def longC9 : String := String.intercalate " " (List.replicate 300 "w")

def roadC9 : BookRoadmap :=
  { modules :=
      [{ id := "module_1", title := "M1", objectives := [],
         estimatedTime := "1-2 hours", order := 1 },
       { id := "module_2", title := "M2", objectives := [],
         estimatedTime := "1-2 hours", order := 2 }],
    totalModules := 2, estimatedReadingTime := "4 hours",
    difficultyLevel := "intermediate" }

def bookC9 : BookProject :=
  { id := "b9", title := "T9", roadmap := some roadC9, modules := [] }

def oracleC9 : String → Nat → GenResult := fun moduleId _ =>
  if moduleId = "module_1" then GenResult.ok longC9 else GenResult.err "boom"

set_option maxRecDepth 8192 in
/-- C9 witness: `spec_C9` on a fresh two-unit run whose first unit succeeds
and whose second fails permanently; the second saved checkpoint —
completed `module_1`, failed `module_2` — satisfies the invariant. -/
theorem spec_C9_witness :
    GoodCheckpoint (roadC9.modules.map (·.id))
      { bookId := "b9", completedModuleIds := ["module_1"],
        failedModuleIds := ["module_2"], lastSuccessfulIndex := 1 } := by
  have h := spec_C9 settingsC3 true oracleC9 (fun _ _ => "u9")
    { mem := [], localStore := [] } bookC9 roadC9 rfl (by decide) (by decide)
    (by decide) (by decide)
    [{ bookId := "b9", completedModuleIds := ["module_1"],
       failedModuleIds := [], lastSuccessfulIndex := 0 },
     { bookId := "b9", completedModuleIds := ["module_1"],
       failedModuleIds := ["module_2"], lastSuccessfulIndex := 1 }] (by rfl)
  exact h _ (by simp)

/-! ### Claim C7 -/

def settingsC7 : APISettings :=
  { googleApiKey := "key-7", zhipuApiKey := "", mistralApiKey := "",
    selectedProvider := "google", selectedModel := "gemini-2.5-flash" }

def cpC7 : GenerationCheckpoint :=
  { bookId := "b7", completedModuleIds := ["module_1"], failedModuleIds := [],
    lastSuccessfulIndex := 0 }

def storeC7 : CheckpointStore :=
  { mem := [("b7", cpC7)], localStore := [("checkpoint_b7", cpC7)] }

def modC7 : BookModule :=
  { id := "m1", roadmapModuleId := "module_1", title := "M1",
    content := "done text", wordCount := 400, status := ModuleStatus.completed }

def bookC7 : BookProject :=
  { id := "b7", title := "T7", roadmap := none, modules := [modC7] }

/-- C7 theorem at the failing input: all three auxiliary generations are
awaited together and the summary one fails (`NetworkFailure`-style message)
while introduction and glossary succeed; `assembleFinalBook` rejects with
that error, no update ever carries a `finalBook` (or any) field beyond the
entry `assembling/90` update, and the checkpoint store is untouched.  In
particular *no* update sets the job status to an error state — the recovery
variant's catch block only rethrows, which is the divergence from the claim
(and from the earlier variant, lines 826-835, which does emit
`status: error`). -/
theorem spec_C7_theorem :
    assembleFinalBook settingsC7 true (GenResult.ok "intro text")
      (GenResult.err "Network error. Please check your internet connection and try again.")
      (GenResult.ok "glossary text") "10/12/2026" storeC7 bookC7 =
      { result := .error
          "Network error. Please check your internet connection and try again.",
        updates := [{ status := some "assembling", progress := some 90 }],
        store := storeC7, cleared := false } := by
  rfl
